import Mathlib

/-!
# Verification of the moderation bot (Roond382/mybot)

Shallow embedding of `src/bot.py` (and the matching helpers of
`src/database.py`): the `applications` table becomes a list of
`Application` records, each database helper becomes a pure function on
that list, and the text filter `censor_text` is modelled character by
character, including the contact-information regex with its greedy
backtracking.  Machine text is `List Char`; timestamps and dates are
`Int` (seconds, respectively day numbers), so that SQL comparisons such
as `created_at > datetime("now", "-1 hour")` become integer
comparisons.
-/

namespace MyBot

/-! ## Text filter (src/bot.py lines 295-332) -/

/-- Case folding used to model `re.IGNORECASE`: ASCII `A`-`Z` and
Cyrillic `А`-`Я` (U+0410..U+042F) map down by 0x20, `Ё` (U+0401) maps to
`ё` (U+0451); everything else is unchanged.  This covers every character
of the configured word lists and triggers. -/
def lowerChar (c : Char) : Char :=
  if 0x41 ≤ c.toNat ∧ c.toNat ≤ 0x5a then Char.ofNat (c.toNat + 0x20)
  else if 0x410 ≤ c.toNat ∧ c.toNat ≤ 0x42f then Char.ofNat (c.toNat + 0x20)
  else if c.toNat = 0x401 then Char.ofNat 0x451
  else c

/-- Does `w` occur, case-insensitively, as a prefix of `t`? -/
def matchesPrefixCI : List Char → List Char → Bool
  | [], _ => true
  | _ :: _, [] => false
  | w :: ws, c :: cs => lowerChar c = lowerChar w && matchesPrefixCI ws cs

/-- `re.search(re.escape(w), t, re.IGNORECASE)` for a nonempty literal
word `w`: does `w` occur case-insensitively anywhere in `t`? -/
def containsCI (w : List Char) : List Char → Bool
  | [] => w.isEmpty
  | c :: cs => matchesPrefixCI w (c :: cs) || containsCI w cs

/-- The replacement `***` of src/bot.py line 318. -/
def stars : List Char := ['*', '*', '*']

/-- One left-to-right pass of `re.sub(re.escape(w), repl, t)` on literal
word `w`, replacing non-overlapping occurrences.  The `fuel` argument is
only a structural-recursion bound; it is instantiated with `t.length`,
which the scan never exhausts (every step consumes at least one
character, because the words loaded by `load_bad_words` are nonempty). -/
def replaceAllGo (w repl : List Char) : Nat → List Char → List Char
  | 0, t => t
  | _, [] => []
  | fuel + 1, c :: cs =>
    if matchesPrefixCI w (c :: cs) then
      repl ++ replaceAllGo w repl fuel (List.drop (w.length - 1) cs)
    else
      c :: replaceAllGo w repl fuel cs

def replaceAllCI (w repl t : List Char) : List Char :=
  replaceAllGo w repl t.length t

/-- The word loop of `censor_text` (src/bot.py lines 314-320): for each
bad word, if it occurs in the text so far, set the flag and substitute
`***` for every occurrence. -/
def censorWords : List (List Char) → List Char × Bool → List Char × Bool
  | [], acc => acc
  | w :: ws, (t, flag) =>
    if containsCI w t then censorWords ws (replaceAllCI w stars t, true)
    else censorWords ws (t, flag)

/-- `DEFAULT_BAD_WORDS` (src/bot.py line 56), the list used when
`bad_words.txt` is absent. -/
def defaultBadWords : List (List Char) :=
  ["хуй".toList, "пизда".toList, "блять".toList,
   "блядь".toList, "ебать".toList, "сука".toList]

/-- Membership test for the character class `[:;\s]` of the contact
regex.  `\s` is modelled by the code points the patterns of Python type str
treat as whitespace. -/
def isClassSep (c : Char) : Bool :=
  c = ':' || c = ';' ||
  [0x20, 0x09, 0x0a, 0x0b, 0x0c, 0x0d, 0x1c, 0x1d, 0x1e, 0x1f,
   0x85, 0xa0, 0x1680, 0x2028, 0x2029, 0x202f, 0x205f, 0x3000].contains c.toNat ||
  (0x2000 ≤ c.toNat && c.toNat ≤ 0x200a)

/-- Membership test for the phone-body class of the contact regex,
written in the source as a set holding plus, digits, parentheses, dot,
whitespace and hyphen; digits are modelled by ASCII `0`-`9`. -/
def isClassBody (c : Char) : Bool :=
  c = '+' || ('0' ≤ c && c ≤ '9') || c = '(' || c = ')' || c = '.' ||
  c = '-' ||
  [0x20, 0x09, 0x0a, 0x0b, 0x0c, 0x0d, 0x1c, 0x1d, 0x1e, 0x1f,
   0x85, 0xa0, 0x1680, 0x2028, 0x2029, 0x202f, 0x205f, 0x3000].contains c.toNat ||
  (0x2000 ≤ c.toNat && c.toNat ≤ 0x200a)

/-- Length of the maximal leading run of separator-class characters. -/
def runSep : List Char → Nat
  | [] => 0
  | c :: cs => if isClassSep c then runSep cs + 1 else 0

/-- Length of the maximal leading run of body-class characters. -/
def runBody : List Char → Nat
  | [] => 0
  | c :: cs => if isClassBody c then runBody cs + 1 else 0

/-- Backtracking step for the tail of the contact regex after a trigger.
The greedy star over the separator class first takes its maximal run
`a`; then the body class must supply at least 7 characters.  If it
cannot, the star gives characters back one at a time (`j = a, a-1, …,
0`), exactly as the regex engine does; a split at `j` succeeds when the
body-class run starting there has length at least 7, and the match then
extends through that whole greedy run. -/
def findBack (cs : List Char) : Nat → Option Nat
  | 0 => if 7 ≤ runBody cs then some (runBody cs) else none
  | j + 1 =>
    if 7 ≤ runBody (cs.drop (j + 1)) then some (j + 1 + runBody (cs.drop (j + 1)))
    else findBack cs j

/-- Number of characters consumed by the regex tail after a trigger
word, or `none` when the tail cannot match there. -/
def restLen (cs : List Char) : Option Nat :=
  findBack cs (runSep cs)

/-- The trigger alternatives of the contact regex (src/bot.py line 324),
in the order the alternation tries them; the optional-dot alternative
is expanded into its two greedy-order cases. -/
def contactTriggers : List (List Char) :=
  ["звоните".toList, "пишите".toList, "телефон".toList, "номер".toList,
   "тел.".toList, "тел".toList, "т.".toList]

/-- Try the trigger alternatives at the current position, in order; for
each that matches, require the regex tail to match right after it, and
return the total match length. -/
def tryTriggersFrom : List (List Char) → List Char → Option Nat
  | [], _ => none
  | t :: ts, cs =>
    if matchesPrefixCI t cs then
      match restLen (cs.drop t.length) with
      | some r => some (t.length + r)
      | none => tryTriggersFrom ts cs
    else tryTriggersFrom ts cs

/-- Length of the full contact-regex match anchored at this position,
if any. -/
def contactMatchAt (cs : List Char) : Option Nat :=
  tryTriggersFrom contactTriggers cs

/-- The replacement text of src/bot.py line 325. -/
def contactRepl : List Char :=
  "Контактная информация скрыта (пишите в ЛС)".toList

/-- Left-to-right scan of `re.sub` for the contact regex: at each
position, if the pattern matches there, emit the replacement and resume
after the match; otherwise keep the character.  `fuel` is a structural
bound instantiated with the text length; every match consumes at least
9 characters (a trigger of length at least 2 plus at least 7 body
characters), so `List.drop (n - 1) cs` is the text after the match. -/
def contactSubGo : Nat → List Char → List Char
  | 0, t => t
  | _, [] => []
  | fuel + 1, c :: cs =>
    match contactMatchAt (c :: cs) with
    | some n => contactRepl ++ contactSubGo fuel (List.drop (n - 1) cs)
    | none => c :: contactSubGo fuel cs

def contactSub (t : List Char) : List Char :=
  contactSubGo t.length t

/-- Does the contact regex match anywhere in `t`? -/
def hasContact : List Char → Bool
  | [] => false
  | c :: cs => (contactMatchAt (c :: cs)).isSome || hasContact cs

/-- `censor_text` (src/bot.py lines 308-332): substitute `***` for the
configured bad words, setting the flag when any was found, then redact
contact information after trigger words; the flag does NOT reflect the
contact substitution. -/
def censorText (bad : List (List Char)) (text : List Char) : List Char × Bool :=
  let r := censorWords bad (text, false)
  (contactSub r.1, r.2)

/-! ### Lemmas about the filter -/

theorem censorWords_flag_true (ws : List (List Char)) (t : List Char) :
    (censorWords ws (t, true)).2 = true := by
  induction ws generalizing t with
  | nil => rfl
  | cons w ws ih =>
    simp only [censorWords]
    split <;> exact ih _

theorem censorWords_of_no_match (ws : List (List Char)) (t : List Char) (b : Bool)
    (h : ∀ w ∈ ws, containsCI w t = false) :
    censorWords ws (t, b) = (t, b) := by
  induction ws with
  | nil => rfl
  | cons w ws ih =>
    have hw : containsCI w t = false := h w (List.mem_cons_self w ws)
    simp only [censorWords, hw, if_neg Bool.false_ne_true]
    · exact ih fun w hmem => h w (List.mem_cons_of_mem _ hmem)

theorem censorWords_false_no_match (ws : List (List Char)) (t : List Char)
    (h : (censorWords ws (t, false)).2 = false) :
    ∀ w ∈ ws, containsCI w t = false := by
  induction ws with
  | nil => intro w hw; cases hw
  | cons w ws ih =>
    intro v hv
    cases hw : containsCI w t with
    | true =>
      exfalso
      simp only [censorWords, hw, if_true] at h
      rw [censorWords_flag_true] at h
      cases h
    | false =>
      rcases List.mem_cons.mp hv with rfl | hv'
      · exact hw
      · apply ih _ v hv'
        simpa only [censorWords, hw, Bool.false_eq_true, if_false] using h

theorem contactSubGo_of_no_contact (fuel : Nat) (t : List Char)
    (h : hasContact t = false) : contactSubGo fuel t = t := by
  induction fuel generalizing t with
  | zero => cases t <;> rfl
  | succ fuel ih =>
    cases t with
    | nil => rfl
    | cons c cs =>
      simp only [hasContact, Bool.or_eq_false_iff] at h
      have hm : contactMatchAt (c :: cs) = none := by
        cases hmm : contactMatchAt (c :: cs)
        · rfl
        · rw [hmm] at h
          cases h.1
      simp only [contactSubGo, hm]
      exact congrArg (c :: ·) (ih cs h.2)

theorem contactSub_of_no_contact (t : List Char) (h : hasContact t = false) :
    contactSub t = t :=
  contactSubGo_of_no_contact t.length t h

/-- Claim C8: a text holding no configured bad word (case-insensitively)
and no trigger word followed by a phone-like sequence passes
`censor_text` unchanged, with the found flag false. -/
theorem censor_text_clean_unchanged (t : List Char)
    (hw : ∀ w ∈ defaultBadWords, containsCI w t = false)
    (hc : hasContact t = false) :
    censorText defaultBadWords t = (t, false) := by
  unfold censorText
  rw [censorWords_of_no_match _ _ _ hw]
  simp only [contactSub_of_no_contact t hc]

/-- Witness for C8, the concrete instance named by the spec:
`censor_text("plain safe text")` returns the same text with found flag
false. -/
theorem censor_text_clean_unchanged_witness :
    censorText defaultBadWords ("plain safe text".toList) =
      ("plain safe text".toList, false) :=
  censor_text_clean_unchanged ("plain safe text".toList) (by decide) (by decide)

/-! ## Data model (src/bot.py lines 167-211, `init_db`) -/

/-- One row of the `applications` table.  The SQL column `type` is
rendered `appType`; `created_at` and `published_at` are timestamps in
seconds, `publish_date` is a day number (the SQL DATE, parsed in the
source with `strptime` and compared as a date). -/
structure Application where
  id : Nat
  user_id : Int
  username : Option String := none
  appType : String
  subtype : Option String := none
  from_name : Option String := none
  to_name : Option String := none
  text : List Char
  photo_id : Option String := none
  status : String := "pending"
  created_at : Int := 0
  publish_date : Option Int := none
  published_at : Option Int := none
  congrat_type : Option String := none
deriving DecidableEq, Repr

/-- The `applications` table. -/
abbrev DB := List Application

/-! ## Database helpers (src/bot.py lines 243-293, 561-574) -/

/-- `get_application_details` (src/bot.py lines 243-252):
`SELECT * FROM applications WHERE id = ?`, first row or none. -/
def get_application_details (db : DB) (app_id : Nat) : Option Application :=
  db.find? fun r => r.id == app_id

/-- `get_approved_unpublished_applications` (src/bot.py lines 254-267):
`WHERE status = "approved" AND published_at IS NULL`.  The query filters
on nothing else; in particular `publish_date` plays no part in it. -/
def get_approved_unpublished_applications (db : DB) : DB :=
  db.filter fun r => decide (r.status = "approved" ∧ r.published_at = none)

/-- `update_application_status` (src/bot.py lines 269-278):
`UPDATE applications SET status = ? WHERE id = ?`.  The write is
unconditional: the current status is not consulted. -/
def update_application_status (db : DB) (app_id : Nat) (status : String) : DB :=
  db.map fun r => if r.id = app_id then { r with status := status } else r

/-- `mark_application_as_published` (src/bot.py lines 280-293):
`UPDATE applications SET published_at = CURRENT_TIMESTAMP,
status = "published" WHERE id = ?`, again unconditional. -/
def mark_application_as_published (db : DB) (app_id : Nat) (now : Int) : DB :=
  db.map fun r =>
    if r.id = app_id then { r with published_at := some now, status := "published" }
    else r

/-- The COUNT subquery of `can_submit_request` (src/bot.py lines
566-569): rows of this user whose `created_at` lies after
`datetime("now", "-1 hour")`, that is, strictly within the last 3600
seconds. -/
def recent_request_count (db : DB) (user_id : Int) (now : Int) : Nat :=
  db.countP fun r => r.user_id == user_id && decide (now - 3600 < r.created_at)

/-- `can_submit_request` (src/bot.py lines 561-574), error-free path:
the user may submit while fewer than 5 rows fall in the window. -/
def can_submit_request (db : DB) (user_id : Int) (now : Int) : Bool :=
  recent_request_count db user_id now < 5

/-- `check_spam` (src/bot.py lines 1382-1392) delegates to
`can_submit_request`; on failure it shows a message and reports false. -/
def check_spam (db : DB) (user_id : Int) (now : Int) : Bool :=
  can_submit_request db user_id now

/-- Largest id in the table, used to model the AUTOINCREMENT
`cur.lastrowid` of the INSERT. -/
def max_id (db : DB) : Nat :=
  db.foldr (fun r m => max r.id m) 0

def next_id (db : DB) : Nat := max_id db + 1

/-! ## Error wrappers (claim C9)

Each database helper wraps its body in `try ... except sqlite3.Error`;
`db_error` is true when the underlying sqlite3 call raises, and the
function then returns the fallback of its except-branch instead of
propagating the exception. -/

/-- `add_application` (src/bot.py lines 212-241): returns the new row id,
or None when sqlite3 raises. -/
def add_application_r (db_error : Bool) (db : DB) (row : Application) :
    DB × Option Nat :=
  if db_error then (db, none) else (db ++ [row], some row.id)

/-- `get_application_details` with its except-branch (line 252): None on
a sqlite3 error (and also when no row matches). -/
def get_application_details_r (db_error : Bool) (db : DB) (app_id : Nat) :
    Option Application :=
  if db_error then none else get_application_details db app_id

/-- `get_approved_unpublished_applications` with its except-branch
(line 267): the empty list on a sqlite3 error. -/
def get_approved_unpublished_r (db_error : Bool) (db : DB) : DB :=
  if db_error then [] else get_approved_unpublished_applications db

/-- `update_application_status` with its except-branch (line 278): the
table is left unchanged and False is returned on a sqlite3 error. -/
def update_application_status_r (db_error : Bool) (db : DB) (app_id : Nat)
    (status : String) : DB × Bool :=
  if db_error then (db, false) else (update_application_status db app_id status, true)

/-- `mark_application_as_published` with its except-branch (line 293). -/
def mark_application_as_published_r (db_error : Bool) (db : DB) (app_id : Nat)
    (now : Int) : DB × Bool :=
  if db_error then (db, false) else (mark_application_as_published db app_id now, true)

/-- `can_submit_request` with its except-branch (src/bot.py line 574):
on a sqlite3 error it returns True, letting the submission through. -/
def can_submit_request_r (db_error : Bool) (db : DB) (user_id : Int) (now : Int) :
    Bool :=
  if db_error then true else can_submit_request db user_id now

/-! ## Delivery and sweep (src/bot.py lines 392-458) -/

/-- `publish_to_channel` (src/bot.py lines 392-435), with the channel id
configured.  `send_ok` models whether the Telegram send call succeeds;
the row is marked as published only after a successful send, and the
returned flag reports success.  A missing row aborts with False. -/
def publish_to_channel (db : DB) (app_id : Nat) (now : Int) (send_ok : Bool) :
    DB × Bool :=
  match get_application_details db app_id with
  | none => (db, false)
  | some _ =>
    if send_ok then (mark_application_as_published db app_id now, true)
    else (db, false)

/-- The row loop of `check_pending_applications` (src/bot.py lines
441-456) over the snapshot of eligible rows.  The rows come from
`get_db_connection`, whose `row_factory` is `sqlite3.Row` (line 162); a
`sqlite3.Row` has no method `get`, so on a row with type `congrat` the
guard `app.get("congrat_type") == "custom"` (line 443) raises
AttributeError.  The per-row handler (lines 455-456) then evaluates
`app.get("id", "N/A")` inside its own log call, raising again, so the
exception escapes to the outer handler (lines 457-458) and the sweep
stops: the congrat row is left unpublished and the remaining rows of
this pass are not processed.  The date comparison of lines 444-450 is
therefore unreachable.  For rows of any other type the else-branch
(lines 451-454) publishes unconditionally, whatever their
`publish_date`. -/
def sweep_rows (now : Int) (send_ok : Bool) : List Application → DB → DB
  | [], db => db
  | app :: rest, db =>
    if app.appType = "congrat" then db
    else sweep_rows now send_ok rest (publish_to_channel db app.id now send_ok).1

/-- `check_pending_applications` (src/bot.py lines 437-458): query the
eligible rows once, then run the row loop. -/
def check_pending_applications (db : DB) (now : Int) (send_ok : Bool) : DB :=
  sweep_rows now send_ok (get_approved_unpublished_applications db) db

/-! ## Moderation (src/bot.py lines 1264-1316, 1466-1469) -/

/-- The observable outcome of one admin-decision callback: the table
afterwards, the direct messages sent to submitters (user id and whether
the text announced approval), and the application ids delivered to the
channel. -/
structure ModerationResult where
  db : DB
  user_messages : List (Int × Bool)
  channel_posts : List Nat
deriving DecidableEq, Repr

set_option linter.unusedVariables false in
/-- `handle_admin_decision` (src/bot.py lines 1264-1316).  The handler
is registered in `setup_handlers` (lines 1466-1469) with the callback
pattern for approve/reject/view on every chat; neither the registration
nor the body compares the chat of the update with ADMIN_CHAT_ID, so
`origin_chat` and `admin_chat` appear here only so that theorems can
quantify over the origin of the callback — the body never reads them.
`action` and `app_id` are the two halves of `query.data.split("_", 1)`.
On approve the status is written first, the submitter is notified, and
then the item is sent to the channel at once unless it is a custom
congratulation dated strictly after today (lines 1283-1298).  On reject
the status is written and the submitter notified.  On view nothing is
written; the full text goes back to the admin chat only. -/
def handle_admin_decision (db : DB) (origin_chat admin_chat : Int)
    (action : String) (app_id : Nat) (today now : Int) (send_ok : Bool) :
    ModerationResult :=
  match get_application_details db app_id with
  | none => ⟨db, [], []⟩
  | some app =>
    if action = "approve" then
      let db1 := update_application_status db app_id "approved"
      let deferred : Bool :=
        app.appType == "congrat" && app.congrat_type == some "custom" &&
          match app.publish_date with
          | some d => decide (today < d)
          | none => false
      if deferred then ⟨db1, [(app.user_id, true)], []⟩
      else
        let res := publish_to_channel db1 app_id now send_ok
        ⟨res.1, [(app.user_id, true)], if res.2 then [app_id] else []⟩
    else if action = "reject" then
      ⟨update_application_status db app_id "rejected", [(app.user_id, false)], []⟩
    else
      ⟨db, [], []⟩

/-! ## Conversation completion (src/bot.py lines 961-1179) -/

/-- The `context.user_data` slots read by `complete_request` and the
censor-approval flow. -/
structure UserData where
  utype : Option String := none
  subtype : Option String := none
  from_name : Option String := none
  to_name : Option String := none
  congrat_type : Option String := none
  publish_date : Option Int := none
  photo_id : Option String := none
  text : List Char := []
  censored_text : Option (List Char) := none
deriving DecidableEq, Repr

/-- Python `a or b` on text values: the left side wins unless it is
None or the empty string. -/
def py_or_text : Option (List Char) → List Char → List Char
  | some t, fb => if t.isEmpty then fb else t
  | none, fb => fb

/-- Line 1085: `final_text = text or user_data.get("censored_text") or
user_data.get("text", "")`. -/
def final_text_of (text : Option (List Char)) (ud : UserData) : List Char :=
  py_or_text text (py_or_text ud.censored_text ud.text)

/-- `complete_request` (src/bot.py lines 1071-1179), error-free database
path: resolve the final text, bail out (without inserting) when it is
empty or no type was chosen, bail out when `check_spam` vetoes, and
otherwise INSERT the row — status defaults to pending, `created_at` to
the current time — returning the fresh id. -/
def complete_request (db : DB) (user_id : Int) (username : Option String)
    (ud : UserData) (text : Option (List Char)) (now : Int) : DB × Option Nat :=
  let ft := final_text_of text ud
  if ft.isEmpty then (db, none)
  else
    match ud.utype with
    | none => (db, none)
    | some ty =>
      if check_spam db user_id now then
        let i := next_id db
        (db ++ [{ id := i, user_id := user_id, username := username,
                  appType := ty, subtype := ud.subtype,
                  from_name := some (ud.from_name.getD ""),
                  to_name := some (ud.to_name.getD ""),
                  text := ft, photo_id := ud.photo_id,
                  status := "pending", created_at := now,
                  publish_date := ud.publish_date, published_at := none,
                  congrat_type := ud.congrat_type }], some i)
      else (db, none)

/-- The tail of `process_announce_news_text` (src/bot.py lines
997-1013), after the length checks, with `formatted` standing for
`formatted_text`: store the raw text in user_data, run the censor; when
a bad word was found remember the censored preview and stop in
WAIT_CENSOR_APPROVAL (result `none`); otherwise call `complete_request`
at once, passing the RAW `formatted_text` — the censor output, and with
it any contact redaction, is discarded on this path. -/
def process_text_tail (db : DB) (user_id : Int) (username : Option String)
    (ud : UserData) (formatted : List Char) (now : Int) :
    UserData × Option (DB × Option Nat) :=
  let ud1 := { ud with text := formatted }
  let c := censorText defaultBadWords formatted
  if c.2 then ({ ud1 with censored_text := some c.1 }, none)
  else (ud1, some (complete_request db user_id username ud1 (some formatted) now))

/-- The accept branch of `handle_censor_choice` for a submission that is
not a custom congratulation (src/bot.py lines 1042-1044): set
`publish_date` to today and run `complete_request` with `text = None`,
so the stored text resolves to `user_data["censored_text"]`. -/
def handle_censor_accept (db : DB) (user_id : Int) (username : Option String)
    (ud : UserData) (today now : Int) : DB × Option Nat :=
  complete_request db user_id username { ud with publish_date := some today } none now

/-! ## Concrete fixtures used by witnesses and counterexamples -/

def sampleText : List Char := "0123456789".toList

/-- A fresh news submission, as inserted by `complete_request`. -/
def pendingNews : Application :=
  { id := 1, user_id := 7, appType := "news", text := sampleText }

/-- An approved, unpublished news row dated tomorrow (today is day 10). -/
def futureNews : Application :=
  { id := 2, user_id := 7, appType := "news", text := sampleText,
    status := "approved", publish_date := some 11 }

/-- An approved, unpublished custom congratulation dated yesterday
(today is day 10). -/
def dueCongrat : Application :=
  { id := 1, user_id := 7, appType := "congrat", text := sampleText,
    status := "approved", congrat_type := some "custom", publish_date := some 9 }

/-- A news row that has already been delivered to the channel. -/
def publishedNews : Application :=
  { id := 1, user_id := 7, appType := "news", text := sampleText,
    status := "published", published_at := some 1 }

def approvedA : Application :=
  { id := 1, user_id := 7, appType := "news", text := sampleText,
    status := "approved" }

def approvedB : Application :=
  { id := 2, user_id := 8, appType := "news", text := sampleText,
    status := "approved" }

/-- One of five submissions of user 7 inside the rolling hour
(`now = 1000`). -/
def spamRow (i : Nat) : Application :=
  { id := i, user_id := 7, appType := "news", text := sampleText,
    created_at := 999 }

def fiveRows : DB := [spamRow 1, spamRow 2, spamRow 3, spamRow 4, spamRow 5]

def newsUd : UserData := { utype := some "news" }

/-- An announcement whose text carries contact information after a
trigger word but no configured bad word. -/
def contactAd : List Char := "звоните 8-999-123-45-67, продам диван".toList

/-- A news text that the contact regex swallows whole. -/
def contactNews : List Char := "телефон: 8 (999) 123-45-67".toList

/-- The table after user 7 completes a news submission on an empty
database. -/
def db1c : DB := (complete_request [] 7 none newsUd (some sampleText) 0).1

/-- ... after the admin approves application 1 (immediate publication). -/
def db2c : DB := (handle_admin_decision db1c 99 99 "approve" 1 10 1 true).db

/-- ... after the admin then presses reject on the same application. -/
def db3c : DB := (handle_admin_decision db2c 99 99 "reject" 1 10 2 true).db

/-! ## Helper lemmas on the UPDATE statements -/

theorem update_status_mem (db : DB) (app_id : Nat) (s : String) (r : Application)
    (h : r ∈ update_application_status db app_id s) :
    (r.id = app_id ∧ r.status = s) ∨ (r.id ≠ app_id ∧ r ∈ db) := by
  unfold update_application_status at h
  rcases List.mem_map.mp h with ⟨r0, hr0, heq⟩
  by_cases hcase : r0.id = app_id
  · rw [if_pos hcase] at heq
    left
    rw [← heq]
    exact ⟨hcase, rfl⟩
  · rw [if_neg hcase] at heq
    right
    rw [← heq]
    exact ⟨hcase, hr0⟩

theorem mark_published_mem (db : DB) (app_id : Nat) (now : Int) (r : Application)
    (h : r ∈ mark_application_as_published db app_id now) :
    (r.id = app_id ∧ r.status = "published" ∧ r.published_at = some now) ∨
      (r.id ≠ app_id ∧ r ∈ db) := by
  unfold mark_application_as_published at h
  rcases List.mem_map.mp h with ⟨r0, hr0, heq⟩
  by_cases hcase : r0.id = app_id
  · rw [if_pos hcase] at heq
    left
    rw [← heq]
    exact ⟨hcase, rfl, rfl⟩
  · rw [if_neg hcase] at heq
    right
    rw [← heq]
    exact ⟨hcase, hr0⟩

/-! ## Claim C1 -/

/-- Claim C1, corrected: `handle_admin_decision` performs no
authorization at all — its outcome is the same whatever chat the
callback came from and whatever chat is configured as the admin chat,
because neither the handler body nor its registration ever reads the
origin. -/
theorem handle_admin_decision_independent_of_origin (db : DB)
    (o1 a1 o2 a2 : Int) (action : String) (app_id : Nat) (today now : Int)
    (send_ok : Bool) :
    handle_admin_decision db o1 a1 action app_id today now send_ok =
      handle_admin_decision db o2 a2 action app_id today now send_ok := rfl

/-- Counterexample to claim C1 as stated: an approve callback from chat
42, with the admin chat configured as 99, is processed in full — the
row is approved and published, the submitter is notified, and the item
goes to the channel. -/
theorem foreign_chat_callback_processed :
    (42 : Int) ≠ 99 ∧
    ((handle_admin_decision [pendingNews] 42 99 "approve" 1 10 20 true).db.map
        (·.status)) = ["published"] ∧
    (handle_admin_decision [pendingNews] 42 99 "approve" 1 10 20 true).user_messages
        = [(7, true)] ∧
    (handle_admin_decision [pendingNews] 42 99 "approve" 1 10 20 true).channel_posts
        = [1] := by decide

/-! ## Claim C2 -/

/-- Claim C2, corrected: the eligibility query keeps every row with
status approved and NULL `published_at`, whatever its `publish_date`;
the date gate the claim describes is not part of the query. -/
theorem eligibility_ignores_publish_date (db : DB) (r : Application)
    (hr : r ∈ db) (hs : r.status = "approved") (hp : r.published_at = none) :
    r ∈ get_approved_unpublished_applications db := by
  unfold get_approved_unpublished_applications
  rw [List.mem_filter]
  exact ⟨hr, by simp [hs, hp]⟩

/-- Witness for the corrected C2 at a row dated tomorrow. -/
theorem eligibility_ignores_publish_date_witness :
    futureNews ∈ get_approved_unpublished_applications [futureNews] :=
  eligibility_ignores_publish_date [futureNews] futureNews (by decide) (by decide)
    (by decide)

/-- Counterexample to claim C2 as stated: with today being day 10, the
approved unpublished row dated day 11 IS returned by
`get_approved_unpublished_applications`. -/
theorem future_dated_row_returned :
    (10 : Int) < 11 ∧ futureNews.publish_date = some 11 ∧
    futureNews.status = "approved" ∧ futureNews.published_at = none ∧
    futureNews ∈ get_approved_unpublished_applications [futureNews] := by decide

/-! ## Claim C3 -/

/-- Claim C3 is broken by the code: with today = 10, the approved
unpublished custom congratulation dated yesterday (day 9) is selected
by the eligibility query, yet a full sweep — with every send
succeeding — leaves the table unchanged: the row is never handed to
`publish_to_channel` and never marked, because evaluating
`app.get("congrat_type")` on a `sqlite3.Row` raises AttributeError
before the date is ever compared. -/
theorem sweep_never_publishes_due_custom_congrat :
    dueCongrat.status = "approved" ∧ dueCongrat.published_at = none ∧
    dueCongrat.publish_date = some 9 ∧ (9 : Int) < 10 ∧
    dueCongrat ∈ get_approved_unpublished_applications [dueCongrat] ∧
    check_pending_applications [dueCongrat] 20 true = [dueCongrat] := by decide

/-! ## Claim C4 -/

/-- Claim C4, corrected: the status UPDATEs never consult the current
status, so a late or repeated callback overwrites it — a reject always
leaves the targeted row with status rejected, and
`mark_application_as_published` always leaves it published, whatever
state either row was in before. -/
theorem status_write_unconditional (db : DB) (oc ac : Int) (app_id : Nat)
    (today now : Int) (send_ok : Bool) (r : Application)
    (h : get_application_details db app_id = some r) :
    (∀ r2 ∈ (handle_admin_decision db oc ac "reject" app_id today now send_ok).db,
        r2.id = app_id → r2.status = "rejected") ∧
    (∀ r2 ∈ mark_application_as_published db app_id now,
        r2.id = app_id → r2.status = "published") := by
  constructor
  · intro r2 hr2 hid
    have hdb : (handle_admin_decision db oc ac "reject" app_id today now send_ok).db
        = update_application_status db app_id "rejected" := by
      simp [handle_admin_decision, h]
    rw [hdb] at hr2
    rcases update_status_mem _ _ _ _ hr2 with ⟨_, hst⟩ | ⟨hne, _⟩
    · exact hst
    · exact absurd hid hne
  · intro r2 hr2 hid
    rcases mark_published_mem _ _ _ _ hr2 with ⟨_, hst, _⟩ | ⟨hne, _⟩
    · exact hst
    · exact absurd hid hne

/-- Witness for the corrected C4: rejecting the already published row
overwrites its status with rejected, and re-marking keeps published. -/
theorem status_write_unconditional_witness :
    (∀ r2 ∈ (handle_admin_decision [publishedNews] 99 99 "reject" 1 10 2 true).db,
        r2.id = 1 → r2.status = "rejected") ∧
    (∀ r2 ∈ mark_application_as_published [publishedNews] 1 2,
        r2.id = 1 → r2.status = "published") :=
  status_write_unconditional [publishedNews] 99 99 1 10 2 true publishedNews
    (by decide)

/-- Counterexample to claim C4 as stated, along a reachable operation
sequence: submit a news item to the empty table, approve it (which also
publishes it at once), then press reject on the stale admin message —
the row moves published → rejected, a backward transition. -/
theorem published_row_can_be_rejected :
    db1c.map (·.status) = ["pending"] ∧
    db2c.map (·.status) = ["published"] ∧
    db3c.map (·.status) = ["rejected"] := by decide

/-! ## Claim C5 -/

/-- Claim C5: `can_submit_request` compares the rolling-hour COUNT with
5; at 5 or more recent rows the submission path of `complete_request`
inserts nothing and returns no id, and below 5 it inserts exactly one
row with the fresh id. -/
theorem rate_limit_blocks_sixth_submission (db : DB) (uid : Int)
    (un : Option String) (ud : UserData) (text : Option (List Char)) (now : Int)
    (ty : String) (hft : (final_text_of text ud).isEmpty = false)
    (hty : ud.utype = some ty) :
    (can_submit_request db uid now = decide (recent_request_count db uid now < 5)) ∧
    (5 ≤ recent_request_count db uid now →
      complete_request db uid un ud text now = (db, none)) ∧
    (recent_request_count db uid now < 5 →
      (complete_request db uid un ud text now).2 = some (next_id db) ∧
      (complete_request db uid un ud text now).1.length = db.length + 1) := by
  refine ⟨rfl, ?_, ?_⟩
  · intro h5
    have hspam : check_spam db uid now = false := by
      simp [check_spam, can_submit_request, Nat.not_lt.mpr h5]
    simp [complete_request, hft, hty, hspam]
  · intro h5
    have hspam : check_spam db uid now = true := by
      simp [check_spam, can_submit_request, h5]
    simp [complete_request, hft, hty, hspam]

/-- Witness for C5: five submissions of user 7 already sit inside the
rolling hour, so the sixth attempt at `now = 1000` is blocked and the
table is unchanged. -/
theorem rate_limit_blocks_sixth_submission_witness :
    complete_request fiveRows 7 none newsUd (some sampleText) 1000 =
      (fiveRows, none) :=
  (rate_limit_blocks_sixth_submission fiveRows 7 none newsUd (some sampleText)
    1000 "news" (by decide) rfl).2.1 (by decide)

/-! ## Claim C6 -/

/-- Claim C6, corrected: when the censor finds no bad word, the raw
assembled text — not the censor output — is what `complete_request`
persists, but that raw text indeed contains no configured bad word; and
on the censor-preview accept path the stored text is exactly the
censored preview. -/
theorem persisted_text_bad_word_free (db : DB) (uid : Int) (un : Option String)
    (ud : UserData) (formatted ctext : List Char) (today now : Int) (ty : String)
    (hflag : (censorText defaultBadWords formatted).2 = false)
    (hfne : formatted ≠ [])
    (hc : ud.censored_text = some ctext) (hcne : ctext ≠ [])
    (hty : ud.utype = some ty)
    (hcan : recent_request_count db uid now < 5) :
    (∀ w ∈ defaultBadWords, containsCI w formatted = false) ∧
    ((process_text_tail db uid un ud formatted now).2.map
        fun p => p.1.map (·.text)) = some (db.map (·.text) ++ [formatted]) ∧
    ((handle_censor_accept db uid un ud today now).1.map (·.text)) =
      db.map (·.text) ++ [ctext] := by
  have hwords : ∀ w ∈ defaultBadWords, containsCI w formatted = false :=
    censorWords_false_no_match defaultBadWords formatted hflag
  have hspam : check_spam db uid now = true := by
    unfold check_spam can_submit_request
    simp [hcan]
  have hfe : formatted.isEmpty = false := by
    cases formatted
    · exact absurd rfl hfne
    · rfl
  have hce : ctext.isEmpty = false := by
    cases ctext
    · exact absurd rfl hcne
    · rfl
  refine ⟨hwords, ?_, ?_⟩
  · simp [process_text_tail, hflag, complete_request, final_text_of, py_or_text,
      hfe, hty, hspam]
  · simp [handle_censor_accept, complete_request, final_text_of, py_or_text,
      hc, hce, hty, hspam]

/-- Witness for the corrected C6 on the accept path: with the censored
preview held in user_data, accepting stores exactly that preview. -/
theorem persisted_text_bad_word_free_witness :
    ((handle_censor_accept [] 7 none
        { utype := some "news", censored_text := some sampleText } 10 0).1.map
      (·.text)) = [] ++ [sampleText] :=
  (persisted_text_bad_word_free [] 7 none
      { utype := some "news", censored_text := some sampleText }
      ("привет мир".toList) sampleText 10 0 "news"
      (by decide) (by decide) rfl (by decide) rfl (by decide)).2.2

/-- Counterexample to claim C6 as stated: the announcement text with
contact information but no bad word leaves `censor_text` modified with
the flag down, and `complete_request` then persists the RAW text — the
stored value differs from the censor-filtered version. -/
theorem raw_text_persisted_unfiltered :
    (censorText defaultBadWords contactAd).2 = false ∧
    (censorText defaultBadWords contactAd).1 ≠ contactAd ∧
    ((process_text_tail [] 7 none { utype := some "announcement" } contactAd 0).2.map
        fun p => p.1.map (·.text)) = some [contactAd] := by decide

/-! ## Claim C7 -/

/-- Claim C7: once `mark_application_as_published` has stamped a row,
that row can no longer appear in the eligibility query — its
`published_at` is non-NULL. -/
theorem published_row_not_requeued (db : DB) (app_id : Nat) (now : Int)
    (r : Application)
    (h : r ∈ get_approved_unpublished_applications
          (mark_application_as_published db app_id now)) :
    r.id ≠ app_id := by
  unfold get_approved_unpublished_applications at h
  rcases List.mem_filter.mp h with ⟨hmem, hcond⟩
  have hc := of_decide_eq_true hcond
  rcases mark_published_mem _ _ _ _ hmem with ⟨_, _, hpub⟩ | ⟨hne, _⟩
  · rw [hpub] at hc
    cases hc.2
  · exact hne

/-- Witness for C7: after marking row 1, the surviving element of the
eligibility query is not row 1. -/
theorem published_row_not_requeued_witness : approvedB.id ≠ 1 :=
  published_row_not_requeued [approvedA, approvedB] 1 5 approvedB (by decide)

/-! ## Claim C9 -/

/-- Claim C9, corrected: every wrapped helper swallows a sqlite3 error
and hands back its fallback — None for `add_application` and
`get_application_details`, the empty list for the bulk query, False for
the two UPDATE helpers — but `can_submit_request` returns True, letting
the submission through. -/
theorem db_errors_return_defaults (db : DB) (row : Application) (app_id : Nat)
    (s : String) (uid now : Int) :
    add_application_r true db row = (db, none) ∧
    get_application_details_r true db app_id = none ∧
    get_approved_unpublished_r true db = [] ∧
    update_application_status_r true db app_id s = (db, false) ∧
    mark_application_as_published_r true db app_id now = (db, false) ∧
    can_submit_request_r true db uid now = true :=
  ⟨rfl, rfl, rfl, rfl, rfl, rfl⟩

/-- Counterexample to claim C9 as stated: on a database error
`can_submit_request` does not return False (nor None) — it returns
True. -/
theorem can_submit_request_error_fail_open :
    can_submit_request_r true [] 0 0 = true ∧
    can_submit_request_r true [] 0 0 ≠ false := by decide

/-! ## Claim C10 -/

/-- Claim C10, corrected: the news text carrying a trigger word and a
phone-like block is silently rewritten by `censor_text` (here the whole
text collapses to the placeholder) with the found flag false, so the
censor-approval preview is skipped — but the rewritten text is then
discarded: the flow completes at once and persists the raw text. -/
theorem silent_redaction_skips_preview :
    (censorText defaultBadWords contactNews).2 = false ∧
    (censorText defaultBadWords contactNews).1 = contactRepl ∧
    contactRepl ≠ contactNews ∧
    ((process_text_tail [] 8 none { utype := some "news" } contactNews 0).2).isSome
      = true ∧
    ((process_text_tail [] 8 none { utype := some "news" } contactNews 0).2.map
        fun p => p.1.map (·.text)) = some [contactNews] := by decide

/-- Counterexample to the storage clause of claim C10 as stated: at the
claimed kind of input the altered text never reaches storage — the
persisted value is the unmodified raw text. -/
theorem contact_redaction_not_stored :
    (censorText defaultBadWords contactNews).2 = false ∧
    (censorText defaultBadWords contactNews).1 ≠ contactNews ∧
    ((process_text_tail [] 8 none { utype := some "news" } contactNews 0).2.map
        fun p => p.1.map (·.text)) ≠
      some [(censorText defaultBadWords contactNews).1] := by decide

end MyBot
